import Mathlib

/-
Verification of the style-transfer posting script.

The repository's active code path (src/main.py) builds a Configuration and
instantiates a SocialPoster from the external `postai` package.  The poster's
construction-time validation, prompt rendering and `generate` operation are
part of this repository's design but their code is not present under src/,
so those operations are modelled from the specification (each such definition
is marked `Modelled from the spec:`).  Everything about `main` itself is
transcribed from src/main.py.
-/

namespace Postai

/-- Configuration, as described in the spec (section 3) and constructed by
`main` in src/main.py. -/
structure Config where
  system_prompt : String
  prompt_template : String
  model_provider : String
  model_name : String
deriving DecidableEq, Repr

/-- Generation Request, as described in the spec (section 3). -/
structure GenRequest where
  example_posts : List String
  context : String
  additional_instructions : String
deriving DecidableEq, Repr

/-- Generation Result, as described in the spec (section 3). -/
structure GenResult where
  generated_text : String
deriving DecidableEq, Repr

/-- The error taxonomy of the spec (section 7). -/
inductive GenError where
  | configurationError
  | invalidRequestError
  | modelUnavailableError
  | modelRefusalError
deriving DecidableEq, Repr

/-- Fuel-indexed replacement of every (non-overlapping, leftmost) occurrence
of `pat` by `rep` in a character list; the fuel is an upper bound on the
number of characters still to be consumed. -/
def replFuel (pat rep : List Char) : Nat → List Char → List Char
  | _, [] => []
  | 0, s => s
  | fuel + 1, c :: cs =>
    if !pat.isEmpty && pat.isPrefixOf (c :: cs) then
      rep ++ replFuel pat rep fuel (List.drop pat.length (c :: cs))
    else
      c :: replFuel pat rep fuel cs

/-- Replace every occurrence of `pat` by `rep` in `s`. -/
def replaceAllStr (s pat rep : String) : String :=
  String.mk (replFuel pat.data rep.data s.data.length s.data)

/-- Fuel-indexed count of the (non-overlapping, leftmost) occurrences of
`pat` in a character list. -/
def countFuel (pat : List Char) : Nat → List Char → Nat
  | _, [] => 0
  | 0, _ => 0
  | fuel + 1, c :: cs =>
    if !pat.isEmpty && pat.isPrefixOf (c :: cs) then
      countFuel pat fuel (List.drop pat.length (c :: cs)) + 1
    else
      countFuel pat fuel cs

/-- Number of occurrences of `pat` in `s`. -/
def countOcc (s pat : String) : Nat :=
  countFuel pat.data s.data.length s.data

/-- Modelled from the spec: the example-joining step of `generate`
(section 4.1, behavior step 1); the separator is an implementation choice,
here a newline.  The joining code lives in `postai.social_poster`, which is
not under src/. -/
def joinExamples (posts : List String) : String :=
  String.intercalate "\n" posts

/-- Modelled from the spec: substitution of the three named placeholders of
a prompt template (section 4.1, behavior step 2).  The substitution code
lives in `postai.social_poster`, which is not under src/. -/
def substTemplate (t ep c ai : String) : String :=
  replaceAllStr (replaceAllStr (replaceAllStr t "{example_posts}" ep) "{context}" c)
    "{additional_instructions}" ai

/-- Modelled from the spec: the rendered prompt is the `system_prompt` plus
the template with all three placeholders substituted (section 3 invariant,
section 4.1 behavior step 3). -/
def renderPrompt (cfg : Config) (req : GenRequest) : String :=
  cfg.system_prompt ++
    substTemplate cfg.prompt_template (joinExamples req.example_posts)
      req.context req.additional_instructions

/-- Modelled from the spec: whether `model_provider`/`model_name` identify a
resolvable model backend (section 4.1 construction); at minimum, empty
identifiers resolve to nothing. -/
def resolvableBackend (provider name : String) : Bool :=
  !(provider == "") && !(name == "")

/-- Modelled from the spec: the construction-time validity check of a
Configuration (section 4.1 construction). -/
def validConfig (cfg : Config) : Bool :=
  !(cfg.system_prompt == "") && !(cfg.prompt_template == "") &&
    resolvableBackend cfg.model_provider cfg.model_name

/-- The state held by a constructed poster: just its immutable
Configuration (section 3 lifecycle). -/
structure PosterState where
  config : Config
deriving DecidableEq, Repr

/-- Modelled from the spec: construction of a StyleTransferPoster
(section 4.1); the second component counts outbound network calls issued
during construction — construction is pure validation and issues none. -/
def mkPoster (cfg : Config) : Except GenError PosterState × Nat :=
  (if validConfig cfg then Except.ok ⟨cfg⟩ else Except.error GenError.configurationError, 0)

/-- What the model provider can do with one submitted prompt: transport
failure, a safety-filtered (unusable) response, or a text response. -/
inductive ProviderOutcome where
  | unavailable
  | filtered
  | response (text : String)
deriving DecidableEq, Repr

/-- The model provider as an oracle from the submitted prompt to an
outcome. -/
abbrev Oracle : Type := String → ProviderOutcome

/-- Modelled from the spec: `generate` (section 4.1).  Returns the result,
the poster state after the call, and the number of outbound network calls
issued.  An empty `context` fails with `InvalidRequestError` before any
network call; otherwise one call is issued and a transport failure maps to
`ModelUnavailableError`, an empty or safety-filtered response to
`ModelRefusalError`, and any other response text is returned unmodified. -/
def generateSt (st : PosterState) (req : GenRequest) (oracle : Oracle) :
    Except GenError GenResult × PosterState × Nat :=
  if req.context = "" then
    (Except.error GenError.invalidRequestError, st, 0)
  else
    match oracle (renderPrompt st.config req) with
    | ProviderOutcome.unavailable => (Except.error GenError.modelUnavailableError, st, 1)
    | ProviderOutcome.filtered => (Except.error GenError.modelRefusalError, st, 1)
    | ProviderOutcome.response t =>
        (if t = "" then Except.error GenError.modelRefusalError
         else Except.ok ⟨t⟩, st, 1)

/-- The result component of `generateSt`. -/
def generate (cfg : Config) (req : GenRequest) (oracle : Oracle) :
    Except GenError GenResult :=
  (generateSt ⟨cfg⟩ req oracle).1

/-- The `system_prompt` literal of src/main.py (lines 7-18). -/
def mainSystemPrompt : String :=
  "You are a social media content specialist with expertise in matching writing styles and voice across platforms. Your task is to:\n    1. Analyze the provided example post(s) by examining:\n       - Writing style, tone, and voice\n       - Sentence structure and length\n       - Use of hashtags, emojis, and formatting\n       - Engagement techniques and calls-to-action\n    2. Generate a new LinkedIn post about the given topic that matches:\n       - The identified writing style and tone\n       - Similar structure and formatting choices\n       - Equivalent use of platform features and hashtags\n       - Comparable engagement elements\n    3. Return only the generated post, formatted exactly as it would appear on LinkedIn, without any additional commentary or explanations."

/-- The `prompt_template` literal of src/main.py (lines 20-27). -/
def mainPromptTemplate : String :=
  "\n    example posts:\n    {example_posts}\n    context:\n    {context}\n    additional instructions:\n    {additional_instructions}\n    "

/-- The `config` dictionary built by `main` in src/main.py (lines 29-34). -/
def mainConfig : Config :=
  { system_prompt := mainSystemPrompt
    prompt_template := mainPromptTemplate
    model_provider := "google"
    model_name := "gemini-2.0-flash-exp" }

/-- The kinds of observable action `main` could take, covering both the
active statements of src/main.py and its commented-out code path. -/
inductive Action where
  | constructConfig
  | constructPoster
  | invokeGenerate
  | logAndRegisterModel
  | setEnvVar
  | constructModelServing
  | deployEndpoint
deriving DecidableEq, Repr

/-- The actions of `main`'s active code path, transcribed from src/main.py
(lines 5-52): it defines the configuration and instantiates `SocialPoster`;
the model logging/registration, the environment-variable assignments for
`GEMINI_API_KEY` and `MLFLOW_TRACING_ENABLED`, and the `ModelServing`
construction and deployment are all commented out. -/
def mainActions : List Action :=
  [Action.constructConfig, Action.constructPoster]

/-- The poster instantiated by `main` from `mainConfig` (src/main.py
line 37), under the spec-modelled constructor. -/
def mainPoster : Except GenError PosterState × Nat :=
  mkPoster mainConfig

/-- A process environment, mapping variable names to values. -/
def Env : Type := List (String × String)

/-- The effect of `main`'s active code path on the process environment,
transcribed from src/main.py: the `os.environ` assignments (lines 43-44)
are comments, so the environment is passed through unchanged. -/
def mainEnvEffect (env : Env) : Env := env

/-- The Configuration of the spec's end-to-end scenario (section 8). -/
def scenarioCfg : Config :=
  { system_prompt := "sys:"
    prompt_template := "posts:{example_posts} topic:{context} extra:{additional_instructions}"
    model_provider := "google"
    model_name := "gemini-2.0-flash-exp" }

/-- The Generation Request of the spec's end-to-end scenario (section 8). -/
def scenarioReq : GenRequest :=
  { example_posts := ["Great day!"]
    context := "launching a product"
    additional_instructions := "" }

/-- A Generation Request whose `context` is empty. -/
def emptyCtxReq : GenRequest :=
  { example_posts := []
    context := ""
    additional_instructions := "" }

/-- A Configuration whose `prompt_template` is empty. -/
def badConfig : Config :=
  { system_prompt := "s"
    prompt_template := ""
    model_provider := "google"
    model_name := "gemini-2.0-flash-exp" }

/-- A provider oracle that always answers with the given text. -/
def constOracle (t : String) : Oracle := fun _ => ProviderOutcome.response t

set_option maxRecDepth 100000

/-- Claim C1: the rendered prompt equals the `system_prompt` plus the
`prompt_template` with all three placeholders substituted; an absent
`additional_instructions` substitutes as the empty string; and in the
end-to-end scenario the template renders to
"posts:Great day! topic:launching a product extra:" with no placeholder
left literal in the rendered prompt. -/
theorem renderPrompt_invariant :
    (∀ (cfg : Config) (req : GenRequest),
      renderPrompt cfg req =
        cfg.system_prompt ++
          substTemplate cfg.prompt_template (joinExamples req.example_posts)
            req.context req.additional_instructions) ∧
    substTemplate scenarioCfg.prompt_template (joinExamples scenarioReq.example_posts)
        scenarioReq.context scenarioReq.additional_instructions =
      "posts:Great day! topic:launching a product extra:" ∧
    renderPrompt scenarioCfg scenarioReq =
      "sys:" ++ "posts:Great day! topic:launching a product extra:" ∧
    countOcc (renderPrompt scenarioCfg scenarioReq) "{example_posts}" = 0 ∧
    countOcc (renderPrompt scenarioCfg scenarioReq) "{context}" = 0 ∧
    countOcc (renderPrompt scenarioCfg scenarioReq) "{additional_instructions}" = 0 :=
  ⟨fun _ _ => rfl, by decide, by decide, by decide, by decide, by decide⟩

/-- Claim C2: prompt rendering is deterministic — identical Configuration
and identical Generation Request produce an identical rendered prompt. -/
theorem rendering_deterministic :
    ∀ (cfg cfg' : Config) (req req' : GenRequest),
      cfg = cfg' → req = req' → renderPrompt cfg req = renderPrompt cfg' req' := by
  intro cfg cfg' req req' hc hr
  rw [hc, hr]

/-- Witness for C2 at the scenario Configuration and Request. -/
theorem rendering_deterministic_witness :
    renderPrompt scenarioCfg scenarioReq = renderPrompt scenarioCfg scenarioReq :=
  rendering_deterministic scenarioCfg scenarioCfg scenarioReq scenarioReq rfl rfl

/-- Claim C3: for every valid Configuration and valid Generation Request,
`generate` either returns a non-empty `generated_text` or exactly one of
the four defined error kinds — never both and never neither. -/
theorem generate_total :
    ∀ (cfg : Config) (req : GenRequest) (oracle : Oracle),
      validConfig cfg = true → req.context ≠ "" →
      ((∃ r, generate cfg req oracle = Except.ok r ∧ r.generated_text ≠ "") ∨
        (∃ e, generate cfg req oracle = Except.error e)) ∧
      ¬((∃ r, generate cfg req oracle = Except.ok r) ∧
        (∃ e, generate cfg req oracle = Except.error e)) := by
  intro cfg req oracle _ hctx
  constructor
  · cases ho : oracle (renderPrompt cfg req) with
    | unavailable =>
        exact Or.inr ⟨GenError.modelUnavailableError, by simp [generate, generateSt, hctx, ho]⟩
    | filtered =>
        exact Or.inr ⟨GenError.modelRefusalError, by simp [generate, generateSt, hctx, ho]⟩
    | response t =>
        by_cases ht : t = ""
        · exact Or.inr ⟨GenError.modelRefusalError, by simp [generate, generateSt, hctx, ho, ht]⟩
        · exact Or.inl ⟨⟨t⟩, by simp [generate, generateSt, hctx, ho, ht], ht⟩
  · rintro ⟨⟨r, hr1⟩, ⟨e, he1⟩⟩
    rw [hr1] at he1
    exact absurd he1 (by simp)

/-- Witness for C3 at the scenario inputs and a constant provider. -/
theorem generate_total_witness :
    ((∃ r, generate scenarioCfg scenarioReq (constOracle "hello") = Except.ok r ∧
        r.generated_text ≠ "") ∨
      (∃ e, generate scenarioCfg scenarioReq (constOracle "hello") = Except.error e)) ∧
    ¬((∃ r, generate scenarioCfg scenarioReq (constOracle "hello") = Except.ok r) ∧
      (∃ e, generate scenarioCfg scenarioReq (constOracle "hello") = Except.error e)) :=
  generate_total scenarioCfg scenarioReq (constOracle "hello") (by decide) (by decide)

/-- Claim C4: a Generation Request with empty `context` fails with
`InvalidRequestError`, with zero outbound network calls issued and the
poster state unchanged. -/
theorem empty_context_rejected :
    ∀ (st : PosterState) (req : GenRequest) (oracle : Oracle), req.context = "" →
      generateSt st req oracle = (Except.error GenError.invalidRequestError, st, 0) := by
  intro st req oracle h
  simp [generateSt, h]

/-- Witness for C4 at a concrete empty-context request. -/
theorem empty_context_rejected_witness :
    generateSt ⟨scenarioCfg⟩ emptyCtxReq (constOracle "hello") =
      (Except.error GenError.invalidRequestError, ⟨scenarioCfg⟩, 0) :=
  empty_context_rejected ⟨scenarioCfg⟩ emptyCtxReq (constOracle "hello") rfl

/-- Claim C5: construction from a Configuration whose `system_prompt` or
`prompt_template` is empty, or whose `model_provider`/`model_name` do not
identify a resolvable backend, fails with `ConfigurationError` and issues
zero network calls. -/
theorem invalid_config_rejected :
    ∀ cfg : Config,
      (cfg.system_prompt = "" ∨ cfg.prompt_template = "" ∨
        resolvableBackend cfg.model_provider cfg.model_name = false) →
      mkPoster cfg = (Except.error GenError.configurationError, 0) := by
  intro cfg h
  rcases h with h | h | h
  · simp [mkPoster, validConfig, h]
  · simp [mkPoster, validConfig, h]
  · simp [mkPoster, validConfig, h]

/-- Witness for C5 at a Configuration with an empty `prompt_template`. -/
theorem invalid_config_rejected_witness :
    mkPoster badConfig = (Except.error GenError.configurationError, 0) :=
  invalid_config_rejected badConfig (Or.inr (Or.inl rfl))

/-- Claim C6: on success, `generate` returns the provider's complete
response text unmodified. -/
theorem generate_returns_verbatim :
    ∀ (cfg : Config) (req : GenRequest) (oracle : Oracle) (t : String),
      req.context ≠ "" → oracle (renderPrompt cfg req) = ProviderOutcome.response t →
      t ≠ "" → generate cfg req oracle = Except.ok ⟨t⟩ := by
  intro cfg req oracle t hctx ho ht
  simp [generate, generateSt, hctx, ho, ht]

/-- Witness for C6 at the scenario inputs and a constant provider. -/
theorem generate_returns_verbatim_witness :
    generate scenarioCfg scenarioReq (constOracle "hello") = Except.ok ⟨"hello"⟩ :=
  generate_returns_verbatim scenarioCfg scenarioReq (constOracle "hello") "hello"
    (by decide) rfl (by decide)

/-- Claim C7: `generate` mutates no local state — the poster state after
every call equals the state before it, at most one outbound network call is
issued per invocation (exactly one when the request passes validation, zero
when it fails before the network), and a failed call leaves the observable
state identical. -/
theorem generate_frame :
    ∀ (st : PosterState) (req : GenRequest) (oracle : Oracle),
      (generateSt st req oracle).2.1 = st ∧
      (generateSt st req oracle).2.2 ≤ 1 ∧
      (req.context = "" → (generateSt st req oracle).2.2 = 0) ∧
      (req.context ≠ "" → (generateSt st req oracle).2.2 = 1) ∧
      (∀ e, (generateSt st req oracle).1 = Except.error e →
        (generateSt st req oracle).2.1 = st) := by
  intro st req oracle
  by_cases hctx : req.context = ""
  · simp [generateSt, hctx]
  · cases ho : oracle (renderPrompt st.config req) with
    | unavailable => simp [generateSt, hctx, ho]
    | filtered => simp [generateSt, hctx, ho]
    | response t => simp [generateSt, hctx, ho]

/-- Witness for C7 at the scenario inputs and a constant provider. -/
theorem generate_frame_witness :
    (generateSt ⟨scenarioCfg⟩ scenarioReq (constOracle "hello")).2.1 = ⟨scenarioCfg⟩ ∧
    (generateSt ⟨scenarioCfg⟩ scenarioReq (constOracle "hello")).2.2 = 1 :=
  ⟨(generate_frame ⟨scenarioCfg⟩ scenarioReq (constOracle "hello")).1,
    (generate_frame ⟨scenarioCfg⟩ scenarioReq (constOracle "hello")).2.2.2.1 (by decide)⟩

/-- Claim C8: `main` constructs exactly one Configuration, instantiates one
poster, and its active code path invokes no generation, no model
registration, and no endpoint deployment. -/
theorem main_actions_minimal :
    mainActions = [Action.constructConfig, Action.constructPoster] ∧
    mainActions.count Action.constructConfig = 1 ∧
    mainActions.count Action.constructPoster = 1 ∧
    mainActions.count Action.invokeGenerate = 0 ∧
    mainActions.count Action.logAndRegisterModel = 0 ∧
    mainActions.count Action.deployEndpoint = 0 := by
  decide

/-- Claim C9: the Configuration built by `main` satisfies the constructor's
preconditions — non-empty `system_prompt` and `prompt_template`, each of the
three placeholders occurring exactly once in the template, provider "google"
and model "gemini-2.0-flash-exp" — so construction succeeds without
`ConfigurationError`. -/
theorem mainConfig_valid :
    mainConfig.system_prompt ≠ "" ∧
    mainConfig.prompt_template ≠ "" ∧
    countOcc mainConfig.prompt_template "{example_posts}" = 1 ∧
    countOcc mainConfig.prompt_template "{context}" = 1 ∧
    countOcc mainConfig.prompt_template "{additional_instructions}" = 1 ∧
    mainConfig.model_provider = "google" ∧
    mainConfig.model_name = "gemini-2.0-flash-exp" ∧
    mainPoster = (Except.ok ⟨mainConfig⟩, 0) := by
  refine ⟨by decide, by decide, by decide, by decide, by decide, rfl, rfl, rfl⟩

/-- Claim C10: `main` leaves the process environment unchanged — no
environment variable is read or written in the active code path — and no
`ModelServing` object is ever constructed. -/
theorem main_env_unchanged :
    (∀ env : Env, mainEnvEffect env = env) ∧
    mainActions.count Action.setEnvVar = 0 ∧
    mainActions.count Action.constructModelServing = 0 :=
  ⟨fun _ => rfl, by decide, by decide⟩

end Postai
